import Mathlib

/-!
Shallow embedding of the quad9 DoH provider adapter
(src/provider/quad9/quad9.go) and proofs about its query logic.

The adapter's external collaborators (the IDNA normalizer, the subnet
normalizer, the HTTP transport and the JSON decoder) are not part of the
source under verification; they are modelled abstractly as an environment
record `Env`, following the contracts the specification gives them.
-/

namespace Quad9

/-- provides constants (quad9.go lines 40-47): DefaultProvides = iota = 0. -/
def DefaultProvides : Int := 0

/-- SecuredProvides = 1. -/
def SecuredProvides : Int := 1

/-- UnsecuredProvides = 2. -/
def UnsecuredProvides : Int := 2

/-- Upstream endpoint registry (quad9.go lines 49-56), a Go `map[int]string`;
lookup returns the value together with a presence flag, modelled as `Option`. -/
def Upstream : Int → Option String := fun p =>
  if p = DefaultProvides then some "https://9.9.9.9/dns-query"
  else if p = SecuredProvides then some "https://dns9.quad9.net/dns-query"
  else if p = UnsecuredProvides then some "https://dns10.quad9.net/dns-query"
  else none

/-- The distinct error values ECSQuery / SetProvides can return, tagged by the
source call that produced them (the Go code returns them as `error` values). -/
inductive GoError where
  /-- fmt.Errorf at quad9.go line 89, carrying the rejected provides value -/
  | configError (p : Int)
  /-- error returned by idna.ToASCII (line 105) -/
  | nameError (e : String)
  /-- error returned by xip.FixSubnet (line 117) -/
  | subnetError (e : String)
  /-- error returned by the transport Get (line 124) -/
  | transportError (e : String)
  /-- error returned by rsp.Bytes (line 130) -/
  | readError (e : String)
  /-- error returned by the JSON decoder (line 138) -/
  | decodeError (e : String)
  /-- fmt.Errorf at quad9.go line 144, carrying the non-zero status -/
  | statusError (code : Int)
deriving DecidableEq, Repr

/-- Provider client state (quad9.go lines 34-38): the provides mode and the
transport handle (opaque here, identified by a number). -/
structure Provider where
  provides : Int
  xhttp : Nat
deriving DecidableEq, Repr

/-- New (quad9.go lines 73-79). -/
def New : Provider :=
  { provides := DefaultProvides, xhttp := 0 }

/-- The character class removed by Go strings.TrimSpace (unicode.IsSpace on
the white space characters of Latin-1). -/
def goIsSpace (ch : Char) : Bool :=
  ch = ' ' || ch = '\t' || ch = '\n' || ch = '\x0b' || ch = '\x0c' || ch = '\r' ||
    ch = '\x85' || ch = '\xA0'

/-- Go strings.TrimSpace: drops leading and trailing white space. -/
def trimSpace (s : String) : String :=
  String.mk (((s.data.dropWhile goIsSpace).reverse.dropWhile goIsSpace).reverse)

/-- String (quad9.go lines 81-84): the fixed provider identifier. -/
def Provider.string (_ : Provider) : String := "quad9"

/-- SetProvides (quad9.go lines 86-95): validates membership in Upstream
before assigning; returns the receiver state after the call and the error. -/
def Provider.SetProvides (c : Provider) (p : Int) : Provider × Option GoError :=
  match Upstream p with
  | none => (c, some (GoError.configError p))
  | some _ => ({ c with provides := p }, none)

/-- The decoded dns.Response shape. Modelled from the spec: the `dns` package
is not under src/; the spec describes the DNSResponse as a provider tag, a
numeric status code (0 = success) and the answer payload, opaque beyond the
status field. -/
structure Response where
  Status : Int
  Provider : String
  Answer : List String
deriving DecidableEq, Repr

/-- A response body as seen by the decoder: either malformed, or a document
carrying an optional status field, optional provider tag and optional answer
records. Modelled from the spec: the wire shape is owned by the JSON format,
not by this core. -/
inductive WireBody where
  | malformed (raw : String)
  | object (status : Option Int) (provider : Option String) (answer : Option (List String))
deriving DecidableEq, Repr

/-- Modelled from the spec: the JSON decoder collaborator deserializing into
the DNSResponse shape (status code, provider tag, answer records). Following
the decode-into-struct semantics of the Go decoder used at quad9.go line 138:
keys present in the document overwrite the target's fields, absent keys leave
the pre-populated values unchanged, malformed input fails. -/
def decodeInto : WireBody → Response → Except String Response
  | WireBody.malformed raw, _ => Except.error ("invalid json: " ++ raw)
  | WireBody.object st pr ans, init =>
      Except.ok { Status := st.getD init.Status
                  Provider := pr.getD init.Provider
                  Answer := ans.getD init.Answer }

/-- One GET issued through the transport collaborator (quad9.go line 124):
target URL, query parameters and headers. -/
structure HttpCall where
  url : String
  param : List (String × String)
  header : List (String × String)
deriving DecidableEq, Repr

/-- The transport's response object: reading its body (rsp.Bytes, line 130)
may fail; on success it yields a body for the decoder. -/
structure HttpResp where
  body : Except String WireBody
deriving Repr

/-- The external collaborators of the adapter (spec section 6): IDNA
normalization, subnet normalization and the HTTP transport. -/
structure Env where
  idnaToASCII : String → Except String String
  fixSubnet : String → Except String String
  httpGet : HttpCall → Except String HttpResp

/-- Outcome of one query: the receiver state after the call, the returned
response pointer, the returned error, and the GET issued (none when the call
failed before reaching the transport). -/
structure QueryResult where
  client : Provider
  resp : Option Response
  err : Option GoError
  call : Option HttpCall
deriving Repr

/-- Lines 124-147 of quad9.go, the part of ECSQuery from the transport call
on: issue the GET, read the body, decode it into a response whose provider
field is pre-set to c.String() (line 135-137), and apply the status policy
(lines 143-147). Factored out of ECSQuery below. -/
def Provider.doRequest (c : Provider) (env : Env) (call : HttpCall) : QueryResult :=
  match env.httpGet call with
  | Except.error e =>
      { client := c, resp := none, err := some (GoError.transportError e), call := some call }
  | Except.ok rsp =>
    match rsp.body with
    | Except.error e =>
        { client := c, resp := none, err := some (GoError.readError e), call := some call }
    | Except.ok buf =>
      match decodeInto buf { Status := 0, Provider := c.string, Answer := [] } with
      | Except.error e =>
          { client := c, resp := none, err := some (GoError.decodeError e), call := some call }
      | Except.ok rr =>
        if rr.Status ≠ 0 then
          { client := c, resp := some rr, err := some (GoError.statusError rr.Status), call := some call }
        else
          { client := c, resp := some rr, err := none, call := some call }

/-- ECSQuery (quad9.go lines 102-148), transcribed path by path. The receiver
is never assigned to, so every exit returns `client := c`. -/
def Provider.ECSQuery (c : Provider) (env : Env) (d t s : String) : QueryResult :=
  let name := trimSpace d
  match env.idnaToASCII name with
  | Except.error e => { client := c, resp := none, err := some (GoError.nameError e), call := none }
  | Except.ok name =>
    let param : List (String × String) := [("name", name), ("type", trimSpace t)]
    let ss := trimSpace s
    let withEcs : Except GoError (List (String × String)) :=
      if ss ≠ "" then
        match env.fixSubnet ss with
        | Except.error e => Except.error (GoError.subnetError e)
        | Except.ok ss => Except.ok (param ++ [("edns_client_subnet", ss)])
      else Except.ok param
    match withEcs with
    | Except.error e => { client := c, resp := none, err := some e, call := none }
    | Except.ok param =>
      c.doRequest env
        { url := (Upstream c.provides).getD ""
          param := param
          header := [("accept", "application/dns-json")] }

/-- Query (quad9.go lines 97-100): ECSQuery with an empty subnet. -/
def Provider.Query (c : Provider) (env : Env) (d t : String) : QueryResult :=
  c.ECSQuery env d t ""

/-! Concrete collaborator instances used to exercise the adapter. -/

/-- An identity normalizer that accepts every input. -/
def idOk : String → Except String String := fun s => Except.ok s

/-- A normalizer that rejects every input. -/
def allFail : String → Except String String := fun s => Except.error ("bad: " ++ s)

/-- A subnet normalizer appending the /32 host prefix. -/
def cidr32 : String → Except String String := fun s => Except.ok (s ++ "/32")

/-- A transport answering every GET with the same response. -/
def constGet (b : HttpResp) : HttpCall → Except String HttpResp := fun _ => Except.ok b

/-- Environment with accepting normalizers and a scripted transport. -/
def envWith (b : HttpResp) : Env :=
  { idnaToASCII := idOk, fixSubnet := cidr32, httpGet := constGet b }

/-- Scripted body with status 0 and no provider tag on the wire. -/
def env0 : Env := envWith { body := Except.ok (WireBody.object (some 0) none none) }

/-- Scripted body with status 2 and no provider tag on the wire. -/
def env2 : Env := envWith { body := Except.ok (WireBody.object (some 2) none none) }

/-- Scripted body carrying its own provider tag on the wire. -/
def envSpoof : Env := envWith { body := Except.ok (WireBody.object (some 0) (some "evil") none) }

/-- Environment whose IDNA and subnet normalizers reject every input. -/
def envBadIdna : Env :=
  { idnaToASCII := allFail, fixSubnet := allFail,
    httpGet := constGet { body := Except.ok (WireBody.object (some 0) none none) } }

/-- An IDNA normalizer carrying the punycode form of one Japanese domain. -/
def idnaJp : String → Except String String := fun s =>
  if s = "例え.jp" then Except.ok "xn--r8jz45g.jp" else Except.ok s

/-- Environment whose IDNA normalizer knows the Japanese example domain. -/
def envJp : Env :=
  { idnaToASCII := idnaJp, fixSubnet := cidr32,
    httpGet := constGet { body := Except.ok (WireBody.object (some 0) none none) } }

/-- Environment whose subnet normalizer rejects every subnet. -/
def envBadSubnet : Env :=
  { idnaToASCII := idOk, fixSubnet := allFail,
    httpGet := constGet { body := Except.ok (WireBody.object (some 0) none none) } }

/-! Path lemmas shared by the claim theorems. -/

lemma doRequest_outcome (c : Provider) (env : Env) (cl : HttpCall) :
    (∃ e, c.doRequest env cl = ⟨c, none, some (GoError.transportError e), some cl⟩) ∨
    (∃ e, c.doRequest env cl = ⟨c, none, some (GoError.readError e), some cl⟩) ∨
    (∃ e, c.doRequest env cl = ⟨c, none, some (GoError.decodeError e), some cl⟩) ∨
    (∃ rr : Response, rr.Status ≠ 0 ∧
        c.doRequest env cl = ⟨c, some rr, some (GoError.statusError rr.Status), some cl⟩) ∨
    (∃ rr : Response, rr.Status = 0 ∧
        c.doRequest env cl = ⟨c, some rr, none, some cl⟩) := by
  unfold Provider.doRequest
  repeat' split
  · exact Or.inl ⟨_, rfl⟩
  · exact Or.inr (Or.inl ⟨_, rfl⟩)
  · exact Or.inr (Or.inr (Or.inl ⟨_, rfl⟩))
  case _ h => exact Or.inr (Or.inr (Or.inr (Or.inl ⟨_, h, rfl⟩)))
  case _ h => exact Or.inr (Or.inr (Or.inr (Or.inr ⟨_, not_ne_iff.mp h, rfl⟩)))

lemma doRequest_client (c : Provider) (env : Env) (cl : HttpCall) :
    (c.doRequest env cl).client = c := by
  rcases doRequest_outcome c env cl with ⟨e, h⟩ | ⟨e, h⟩ | ⟨e, h⟩ | ⟨rr, _, h⟩ | ⟨rr, _, h⟩ <;>
    rw [h]

lemma doRequest_call (c : Provider) (env : Env) (cl : HttpCall) :
    (c.doRequest env cl).call = some cl := by
  rcases doRequest_outcome c env cl with ⟨e, h⟩ | ⟨e, h⟩ | ⟨e, h⟩ | ⟨rr, _, h⟩ | ⟨rr, _, h⟩ <;>
    rw [h]

lemma doRequest_resp_shape (c : Provider) (env : Env) (cl : HttpCall) (r : Response)
    (h : (c.doRequest env cl).resp = some r) :
    ∃ rsp st pr ans, env.httpGet cl = Except.ok rsp ∧
      rsp.body = Except.ok (WireBody.object st pr ans) ∧
      r = { Status := st.getD 0, Provider := pr.getD "quad9", Answer := ans.getD [] } := by
  unfold Provider.doRequest at h
  split at h
  · simp at h
  case _ rsp hg =>
    split at h
    · simp at h
    case _ buf hb =>
      cases buf with
      | malformed raw => simp [decodeInto] at h
      | object st pr ans =>
        refine ⟨rsp, st, pr, ans, hg, hb, ?_⟩
        simp only [decodeInto] at h
        split at h <;> simp_all [Provider.string]

lemma doRequest_status_policy (c : Provider) (env : Env) (cl : HttpCall) :
    (∀ r, (c.doRequest env cl).resp = some r →
        (r.Status = 0 ∧ (c.doRequest env cl).err = none) ∨
        (r.Status ≠ 0 ∧ (c.doRequest env cl).err = some (GoError.statusError r.Status))) ∧
    (∀ k, (c.doRequest env cl).err = some (GoError.statusError k) →
        k ≠ 0 ∧ ∃ r, (c.doRequest env cl).resp = some r ∧ r.Status = k) := by
  rcases doRequest_outcome c env cl with ⟨e, h⟩ | ⟨e, h⟩ | ⟨e, h⟩ | ⟨rr, hrr, h⟩ | ⟨rr, hrr, h⟩ <;>
      rw [h]
  · exact ⟨by simp, by simp⟩
  · exact ⟨by simp, by simp⟩
  · exact ⟨by simp, by simp⟩
  · refine ⟨?_, ?_⟩
    · intro r hx
      cases hx
      exact Or.inr ⟨hrr, rfl⟩
    · intro k hk
      simp only [Option.some.injEq, GoError.statusError.injEq] at hk
      exact ⟨hk ▸ hrr, rr, rfl, hk⟩
  · refine ⟨?_, ?_⟩
    · intro r hx
      cases hx
      exact Or.inl ⟨hrr, rfl⟩
    · intro k hk
      simp at hk

lemma doRequest_err_ne_name (c : Provider) (env : Env) (cl : HttpCall) (e : String) :
    (c.doRequest env cl).err ≠ some (GoError.nameError e) := by
  rcases doRequest_outcome c env cl with ⟨x, h⟩ | ⟨x, h⟩ | ⟨x, h⟩ | ⟨rr, _, h⟩ | ⟨rr, _, h⟩ <;>
    rw [h] <;> simp

lemma ecs_idna_error (c : Provider) (env : Env) (d t s : String) (e : String)
    (hi : env.idnaToASCII (trimSpace d) = Except.error e) :
    c.ECSQuery env d t s = ⟨c, none, some (GoError.nameError e), none⟩ := by
  simp only [Provider.ECSQuery]
  rw [hi]

lemma ecs_run_noecs (c : Provider) (env : Env) (d t s : String) (a : String)
    (hi : env.idnaToASCII (trimSpace d) = Except.ok a) (hs : trimSpace s = "") :
    c.ECSQuery env d t s =
      c.doRequest env
        { url := (Upstream c.provides).getD ""
          param := [("name", a), ("type", trimSpace t)]
          header := [("accept", "application/dns-json")] } := by
  simp only [Provider.ECSQuery]
  rw [hi]
  simp [hs]

lemma ecs_subnet_error (c : Provider) (env : Env) (d t s : String) (a e : String)
    (hi : env.idnaToASCII (trimSpace d) = Except.ok a) (hs : trimSpace s ≠ "")
    (hf : env.fixSubnet (trimSpace s) = Except.error e) :
    c.ECSQuery env d t s = ⟨c, none, some (GoError.subnetError e), none⟩ := by
  simp only [Provider.ECSQuery]
  rw [hi]
  simp [hs, hf]

lemma ecs_run_ecs (c : Provider) (env : Env) (d t s : String) (a b : String)
    (hi : env.idnaToASCII (trimSpace d) = Except.ok a) (hs : trimSpace s ≠ "")
    (hf : env.fixSubnet (trimSpace s) = Except.ok b) :
    c.ECSQuery env d t s =
      c.doRequest env
        { url := (Upstream c.provides).getD ""
          param := [("name", a), ("type", trimSpace t), ("edns_client_subnet", b)]
          header := [("accept", "application/dns-json")] } := by
  simp only [Provider.ECSQuery]
  rw [hi]
  simp [hs, hf]

lemma ecs_call_shape (c : Provider) (env : Env) (d t s : String) (cl : HttpCall)
    (h : (c.ECSQuery env d t s).call = some cl) :
    ∃ a, env.idnaToASCII (trimSpace d) = Except.ok a ∧
      cl.url = (Upstream c.provides).getD "" ∧
      cl.header = [("accept", "application/dns-json")] ∧
      ((trimSpace s = "" ∧ cl.param = [("name", a), ("type", trimSpace t)]) ∨
        (trimSpace s ≠ "" ∧ ∃ b, env.fixSubnet (trimSpace s) = Except.ok b ∧
          cl.param = [("name", a), ("type", trimSpace t), ("edns_client_subnet", b)])) := by
  cases hi : env.idnaToASCII (trimSpace d) with
  | error e => rw [ecs_idna_error c env d t s e hi] at h; simp at h
  | ok a =>
    by_cases hs : trimSpace s = ""
    · rw [ecs_run_noecs c env d t s a hi hs, doRequest_call] at h
      cases h
      exact ⟨a, rfl, rfl, rfl, Or.inl ⟨hs, rfl⟩⟩
    · cases hf : env.fixSubnet (trimSpace s) with
      | error e => rw [ecs_subnet_error c env d t s a e hi hs hf] at h; simp at h
      | ok b =>
        rw [ecs_run_ecs c env d t s a b hi hs hf, doRequest_call] at h
        cases h
        exact ⟨a, rfl, rfl, rfl, Or.inr ⟨hs, b, rfl, rfl⟩⟩

lemma ecs_resp_shape (c : Provider) (env : Env) (d t s : String) (r : Response)
    (h : (c.ECSQuery env d t s).resp = some r) :
    ∃ cl rsp st pr ans, (c.ECSQuery env d t s).call = some cl ∧
      env.httpGet cl = Except.ok rsp ∧
      rsp.body = Except.ok (WireBody.object st pr ans) ∧
      r = { Status := st.getD 0, Provider := pr.getD "quad9", Answer := ans.getD [] } := by
  cases hi : env.idnaToASCII (trimSpace d) with
  | error e => rw [ecs_idna_error c env d t s e hi] at h ⊢; simp at h
  | ok a =>
    by_cases hs : trimSpace s = ""
    · rw [ecs_run_noecs c env d t s a hi hs] at h ⊢
      obtain ⟨rsp, st, pr, ans, hg, hb, hr⟩ := doRequest_resp_shape _ _ _ _ h
      exact ⟨_, rsp, st, pr, ans, doRequest_call _ _ _, hg, hb, hr⟩
    · cases hf : env.fixSubnet (trimSpace s) with
      | error e => rw [ecs_subnet_error c env d t s a e hi hs hf] at h ⊢; simp at h
      | ok b =>
        rw [ecs_run_ecs c env d t s a b hi hs hf] at h ⊢
        obtain ⟨rsp, st, pr, ans, hg, hb, hr⟩ := doRequest_resp_shape _ _ _ _ h
        exact ⟨_, rsp, st, pr, ans, doRequest_call _ _ _, hg, hb, hr⟩

lemma ecs_client (c : Provider) (env : Env) (d t s : String) :
    (c.ECSQuery env d t s).client = c := by
  cases hi : env.idnaToASCII (trimSpace d) with
  | error e => rw [ecs_idna_error c env d t s e hi]
  | ok a =>
    by_cases hs : trimSpace s = ""
    · rw [ecs_run_noecs c env d t s a hi hs]
      exact doRequest_client _ _ _
    · cases hf : env.fixSubnet (trimSpace s) with
      | error e => rw [ecs_subnet_error c env d t s a e hi hs hf]
      | ok b =>
        rw [ecs_run_ecs c env d t s a b hi hs hf]
        exact doRequest_client _ _ _

/-! Claim theorems. -/

/-- Claim C3: for every integer mode absent from the Upstream registry,
SetProvides returns the unsupported-provides error and leaves the client
(mode and transport handle) unchanged. -/
theorem setProvides_unsupported_rejects (c : Provider) (p : Int)
    (h : Upstream p = none) :
    c.SetProvides p = (c, some (GoError.configError p)) := by
  simp only [Provider.SetProvides, h]

/-- Witness for setProvides_unsupported_rejects at mode 9. -/
theorem setProvides_unsupported_rejects_witness :
    New.SetProvides 9 = (New, some (GoError.configError 9)) :=
  setProvides_unsupported_rejects New 9 (by decide)

/-- Claim C4: for every registered mode, SetProvides succeeds, sets the
active mode, and every subsequent query issues its GET to that mode's
registered endpoint URL. -/
theorem setProvides_supported_and_routes (c : Provider) (p : Int) (u : String)
    (h : Upstream p = some u) :
    c.SetProvides p = ({ c with provides := p }, none) ∧
    (∀ env d t s cl,
        (Provider.ECSQuery { c with provides := p } env d t s).call = some cl →
        cl.url = u) := by
  constructor
  · simp only [Provider.SetProvides, h]
  · intro env d t s cl hc
    obtain ⟨a, _, hurl, _, _⟩ := ecs_call_shape _ env d t s cl hc
    rw [hurl]
    simp [h]

/-- Witness for setProvides_supported_and_routes at the secured mode. -/
theorem setProvides_supported_and_routes_witness :
    New.SetProvides 1 = ({ provides := 1, xhttp := 0 }, none) ∧
    (HttpCall.mk "https://dns9.quad9.net/dns-query"
        [("name", "example.com"), ("type", "A")]
        [("accept", "application/dns-json")]).url = "https://dns9.quad9.net/dns-query" :=
  ⟨(setProvides_supported_and_routes New 1 "https://dns9.quad9.net/dns-query" (by decide)).1,
    (setProvides_supported_and_routes New 1 "https://dns9.quad9.net/dns-query" (by decide)).2
      env0 "example.com" "A" "" _ (by rfl)⟩

/-- Claim C5: Query is definitionally ECSQuery with an empty subnet, and with
an empty subnet the issued parameter set omits the edns_client_subnet key. -/
theorem query_equals_ecsQuery_empty (env : Env) (c : Provider) (d t : String) :
    c.Query env d t = c.ECSQuery env d t "" ∧
    (∀ cl, (c.Query env d t).call = some cl →
        cl.param.lookup "edns_client_subnet" = none) := by
  refine ⟨rfl, ?_⟩
  intro cl hc
  obtain ⟨a, _, _, _, hp | hp⟩ := ecs_call_shape c env d t "" cl hc
  · rw [hp.2]; rfl
  · exact absurd rfl hp.1

/-- Witness for query_equals_ecsQuery_empty on a scripted exchange. -/
theorem query_equals_ecsQuery_empty_witness :
    ([("name", "example.com"), ("type", "A")] : List (String × String)).lookup
      "edns_client_subnet" = none :=
  (query_equals_ecsQuery_empty env0 New "example.com" "A").2
    (HttpCall.mk "https://9.9.9.9/dns-query" [("name", "example.com"), ("type", "A")]
      [("accept", "application/dns-json")]) (by rfl)

/-- Claim C8: Query and ECSQuery leave the client state (provides mode and
transport handle) unchanged on every input and every outcome. -/
theorem query_state_frame (env : Env) (c : Provider) (d t s : String) :
    (c.ECSQuery env d t s).client = c ∧ (c.Query env d t).client = c :=
  ⟨ecs_client c env d t s, ecs_client c env d t ""⟩

/-- Claim C2: whenever ECSQuery returns a response, a zero status comes with
no error and a non-zero status comes with the status error carrying the code;
conversely a status error always comes with a usable response of that code. -/
theorem status_policy_dual_return (env : Env) (c : Provider) (d t s : String) :
    (∀ r, (c.ECSQuery env d t s).resp = some r →
        (r.Status = 0 ∧ (c.ECSQuery env d t s).err = none) ∨
        (r.Status ≠ 0 ∧ (c.ECSQuery env d t s).err = some (GoError.statusError r.Status))) ∧
    (∀ k, (c.ECSQuery env d t s).err = some (GoError.statusError k) →
        k ≠ 0 ∧ ∃ r, (c.ECSQuery env d t s).resp = some r ∧ r.Status = k) := by
  cases hi : env.idnaToASCII (trimSpace d) with
  | error e =>
    rw [ecs_idna_error c env d t s e hi]
    exact ⟨by simp, by simp⟩
  | ok a =>
    by_cases hs : trimSpace s = ""
    · rw [ecs_run_noecs c env d t s a hi hs]
      exact doRequest_status_policy _ _ _
    · cases hf : env.fixSubnet (trimSpace s) with
      | error e =>
        rw [ecs_subnet_error c env d t s a e hi hs hf]
        exact ⟨by simp, by simp⟩
      | ok b =>
        rw [ecs_run_ecs c env d t s a b hi hs hf]
        exact doRequest_status_policy _ _ _

/-- Witness for status_policy_dual_return on a scripted status-2 exchange. -/
theorem status_policy_dual_return_witness :
    (2 : Int) ≠ 0 ∧
    ∃ r, (New.ECSQuery env2 "example.com" "A" "").resp = some r ∧ r.Status = 2 :=
  (status_policy_dual_return env2 New "example.com" "A" "").2 2 (by rfl)

/-- Claim C6: a domain whose trimmed form fails IDNA conversion yields the
name-encoding error, a nil response and no GET; a convertible domain has its
ASCII form submitted as the name parameter. -/
theorem ecsQuery_idna_validation (env : Env) (c : Provider) (d t s : String) :
    (∀ e, env.idnaToASCII (trimSpace d) = Except.error e →
        c.ECSQuery env d t s =
          { client := c, resp := none, err := some (GoError.nameError e), call := none }) ∧
    (∀ a cl, env.idnaToASCII (trimSpace d) = Except.ok a →
        (c.ECSQuery env d t s).call = some cl →
        cl.param.lookup "name" = some a) := by
  constructor
  · intro e hi
    exact ecs_idna_error c env d t s e hi
  · intro a cl hi hc
    obtain ⟨a2, hi2, _, _, hp | hp⟩ := ecs_call_shape c env d t s cl hc
    · rw [hi] at hi2
      cases hi2
      rw [hp.2]
      rfl
    · obtain ⟨_, b, _, hparam⟩ := hp
      rw [hi] at hi2
      cases hi2
      rw [hparam]
      rfl

/-- Witness for ecsQuery_idna_validation: a rejected domain and the
Japanese example domain submitted in punycode form. -/
theorem ecsQuery_idna_validation_witness :
    New.ECSQuery envBadIdna "bad domain" "A" "" =
      { client := New, resp := none,
        err := some (GoError.nameError "bad: bad domain"), call := none } ∧
    ([("name", "xn--r8jz45g.jp"), ("type", "A")] : List (String × String)).lookup
      "name" = some "xn--r8jz45g.jp" :=
  ⟨(ecsQuery_idna_validation envBadIdna New "bad domain" "A" "").1
      "bad: bad domain" (by rfl),
    (ecsQuery_idna_validation envJp New "例え.jp" "A" "").2 "xn--r8jz45g.jp"
      (HttpCall.mk "https://9.9.9.9/dns-query"
        [("name", "xn--r8jz45g.jp"), ("type", "A")]
        [("accept", "application/dns-json")]) (by rfl) (by rfl)⟩

/-- Claim C7: with a non-empty trimmed subnet, a normalizable subnet is
included in canonical form as the edns_client_subnet parameter, and a
non-normalizable one yields the subnet error, a nil response and no GET. -/
theorem ecsQuery_subnet_validation (env : Env) (c : Provider) (d t s : String)
    (hs : trimSpace s ≠ "") :
    (∀ a e, env.idnaToASCII (trimSpace d) = Except.ok a →
        env.fixSubnet (trimSpace s) = Except.error e →
        c.ECSQuery env d t s =
          { client := c, resp := none, err := some (GoError.subnetError e), call := none }) ∧
    (∀ b cl, env.fixSubnet (trimSpace s) = Except.ok b →
        (c.ECSQuery env d t s).call = some cl →
        cl.param.lookup "edns_client_subnet" = some b) := by
  constructor
  · intro a e hi hf
    exact ecs_subnet_error c env d t s a e hi hs hf
  · intro b cl hf hc
    obtain ⟨a, hi, _, _, hp | hp⟩ := ecs_call_shape c env d t s cl hc
    · exact absurd hp.1 hs
    · obtain ⟨_, b2, hf2, hparam⟩ := hp
      rw [hf] at hf2
      cases hf2
      rw [hparam]
      rfl

/-- Witness for ecsQuery_subnet_validation: subnet 1.2.3.4 normalized to
1.2.3.4/32 and included, subnet not-an-ip rejected with no GET. -/
theorem ecsQuery_subnet_validation_witness :
    New.ECSQuery envBadSubnet "example.com" "A" "not-an-ip" =
      { client := New, resp := none,
        err := some (GoError.subnetError "bad: not-an-ip"), call := none } ∧
    ([("name", "example.com"), ("type", "A"), ("edns_client_subnet", "1.2.3.4/32")] :
        List (String × String)).lookup "edns_client_subnet" = some "1.2.3.4/32" :=
  ⟨(ecsQuery_subnet_validation envBadSubnet New "example.com" "A" "not-an-ip"
      (by decide)).1 "example.com" "bad: not-an-ip" (by rfl) (by rfl),
    (ecsQuery_subnet_validation env0 New "example.com" "A" "1.2.3.4" (by decide)).2
      "1.2.3.4/32"
      (HttpCall.mk "https://9.9.9.9/dns-query"
        [("name", "example.com"), ("type", "A"), ("edns_client_subnet", "1.2.3.4/32")]
        [("accept", "application/dns-json")]) (by rfl) (by rfl)⟩

/-- Claim C9: an empty or whitespace-only domain is not a name-encoding
failure (the IDNA collaborator maps the empty string to itself, as the Go
idna package does): the GET is issued with the name parameter empty. -/
theorem ecsQuery_empty_domain_ok (env : Env) (c : Provider) (d t s : String)
    (h1 : trimSpace d = "") (h2 : env.idnaToASCII "" = Except.ok "")
    (h3 : trimSpace s = "") :
    (∀ e, (c.ECSQuery env d t s).err ≠ some (GoError.nameError e)) ∧
    (c.ECSQuery env d t s).call =
      some { url := (Upstream c.provides).getD ""
             param := [("name", ""), ("type", trimSpace t)]
             header := [("accept", "application/dns-json")] } := by
  have hi : env.idnaToASCII (trimSpace d) = Except.ok "" := by rw [h1]; exact h2
  rw [ecs_run_noecs c env d t s "" hi h3]
  exact ⟨fun e => doRequest_err_ne_name c env _ e, doRequest_call c env _⟩

/-- Witness for ecsQuery_empty_domain_ok at the whitespace-only domain. -/
theorem ecsQuery_empty_domain_ok_witness :
    (New.ECSQuery env0 " " "A" "").err ≠ some (GoError.nameError "x") ∧
    (New.ECSQuery env0 " " "A" "").call =
      some { url := "https://9.9.9.9/dns-query"
             param := [("name", ""), ("type", "A")]
             header := [("accept", "application/dns-json")] } :=
  ⟨(ecsQuery_empty_domain_ok env0 New " " "A" "" (by decide) (by rfl) (by rfl)).1 "x",
    (ecsQuery_empty_domain_ok env0 New " " "A" "" (by decide) (by rfl) (by rfl)).2⟩

/-- Claim C10: domain validation strictly precedes subnet validation: an
IDNA failure yields the name error whatever the subnet, and a subnet error
implies the domain conversion succeeded. -/
theorem ecsQuery_validation_order (env : Env) (c : Provider) (d t s : String) :
    (∀ e, env.idnaToASCII (trimSpace d) = Except.error e →
        (c.ECSQuery env d t s).err = some (GoError.nameError e) ∧
        (c.ECSQuery env d t s).resp = none ∧
        (c.ECSQuery env d t s).call = none) ∧
    (∀ e, (c.ECSQuery env d t s).err = some (GoError.subnetError e) →
        ∃ a, env.idnaToASCII (trimSpace d) = Except.ok a) := by
  constructor
  · intro e hi
    rw [ecs_idna_error c env d t s e hi]
    exact ⟨rfl, rfl, rfl⟩
  · intro e he
    cases hi : env.idnaToASCII (trimSpace d) with
    | error e2 =>
      rw [ecs_idna_error c env d t s e2 hi] at he
      simp at he
    | ok a => exact ⟨a, rfl⟩

/-- Witness for ecsQuery_validation_order: both normalizers reject, the name
error is the one reported and no GET is issued. -/
theorem ecsQuery_validation_order_witness :
    (New.ECSQuery envBadIdna "bad" "A" "not-an-ip").err =
      some (GoError.nameError "bad: bad") ∧
    (New.ECSQuery envBadIdna "bad" "A" "not-an-ip").resp = none ∧
    (New.ECSQuery envBadIdna "bad" "A" "not-an-ip").call = none :=
  (ecsQuery_validation_order envBadIdna New "bad" "A" "not-an-ip").1
    "bad: bad" (by rfl)

/-- Claim C1, counterexample: the provider stamp is written before decoding
(quad9.go lines 135-138), so a body carrying its own provider tag overwrites
the stamp and the returned response's provider tag is not quad9. -/
theorem provider_tag_counterexample :
    (New.ECSQuery envSpoof "example.com" "A" "").resp =
      some { Status := 0, Provider := "evil", Answer := [] } ∧
    ("evil" : String) ≠ "quad9" :=
  ⟨by rfl, by decide⟩

/-- Claim C1, amended: ECSQuery pre-stamps the response's provider tag with
quad9 before decoding, so for every accepted body that does not itself carry
a provider tag the returned response's provider tag is quad9. -/
theorem provider_tag_stamped_unless_wire_overrides (env : Env) (c : Provider)
    (d t s : String) (r : Response)
    (hw : ∀ cl rsp st pr ans, env.httpGet cl = Except.ok rsp →
        rsp.body = Except.ok (WireBody.object st pr ans) → pr = none)
    (h : (c.ECSQuery env d t s).resp = some r) :
    r.Provider = "quad9" := by
  obtain ⟨cl, rsp, st, pr, ans, _, hg, hb, hr⟩ := ecs_resp_shape c env d t s r h
  rw [hr, hw cl rsp st pr ans hg hb]
  rfl

/-- Witness for provider_tag_stamped_unless_wire_overrides on a scripted
status-0 body with no provider tag on the wire. -/
theorem provider_tag_stamped_witness :
    (New.ECSQuery env0 "example.com" "A" "").resp =
      some { Status := 0, Provider := "quad9", Answer := [] } ∧
    ({ Status := 0, Provider := "quad9", Answer := [] } : Response).Provider = "quad9" :=
  ⟨by rfl,
    provider_tag_stamped_unless_wire_overrides env0 New "example.com" "A" ""
      { Status := 0, Provider := "quad9", Answer := [] }
      (by
        intro cl rsp st pr ans hg hb
        simp only [env0, envWith, constGet] at hg
        cases hg
        simp only [Except.ok.injEq] at hb
        exact (WireBody.object.inj hb).2.1.symm)
      (by rfl)⟩

end Quad9
